import Mathlib

/-!
Verification of the Panda_Util terminal display library
(`src/panda_util/display.py` and `src/panda_util/selection.py`).

The display renderer `Display._render_to_screen` is embedded as a pure
function from a display state (content buffer, `_last_line_count`, cached
terminal geometry) and the freshly queried terminal geometry to a list of
emitted terminal events plus the updated state.  Rich rendering of a buffer
item (`console.print(item)` into the string buffer) is modelled as an
`Option String` field of the item: `some s` is the text the rich renderer
appends to the string buffer, `none` models the renderer raising.
Likewise `str(item)` is modelled as an `Option String` (`none` = `__str__`
raises); in the non-rich path the source has no try/except, so a `none`
there makes the whole render return `none` (the exception propagates).
-/

namespace PandaUtil

/-- A buffer item, as seen by `_render_to_screen`: its two externally-supplied
renderings.  `richRender` is the text `console.print(item)` writes into the
string buffer (rich appends a trailing newline itself; that newline is part
of this string); `none` models `console.print` raising, which the source
catches.  `strRender` is `str(item)`; `none` models `__str__` raising, which
the source does not catch. -/
structure ContentItem where
  richRender : Option String
  strRender : Option String
deriving Repr, DecidableEq

/-- The mutable state of `Display` that `_render_to_screen` reads and writes:
the content buffer, `_last_line_count`, and the cached terminal geometry
`(terminal_width, terminal_height)`. -/
structure DisplayState where
  buffer : List ContentItem
  lastLineCount : Nat
  termW : Nat
  termH : Nat
deriving Repr, DecidableEq

/-- One terminal emission performed by `_render_to_screen`:
`cursorHome` is `print('\x1b[H')`, `clearScreen` is `print('\x1b[2J')`
(clear without moving the cursor), `content s` is `print(output, end='')`,
`eraseLineSeq` is one `print('\n\x1b[K')` of the shrink pass (a newline
followed by erase-to-end-of-line), and `cursorUp n` is `print('\x1b[{n}A')`. -/
inductive Emit
  | cursorHome
  | clearScreen
  | content (s : String)
  | eraseLineSeq
  | cursorUp (n : Nat)
deriving Repr, DecidableEq

/-- The bytes each emission writes to the output stream. -/
def Emit.bytes : Emit → String
  | .cursorHome => "\x1b[H"
  | .clearScreen => "\x1b[2J"
  | .content s => s
  | .eraseLineSeq => "\n\x1b[K"
  | .cursorUp n => "\x1b[" ++ toString n ++ "A"

/-- Left-to-right concatenation of a list of strings (the model of writing
them in order to a stream or appending them to a string buffer). -/
def strConcat : List String → String
  | [] => ""
  | s :: rest => s ++ strConcat rest

/-- The byte stream of a whole emission list. -/
def emittedString (es : List Emit) : String :=
  strConcat (es.map Emit.bytes)

/-- Number of newline characters in a string (`output.count('\n')`). -/
def countNewlines (s : String) : Nat :=
  s.data.count '\n'

/-- `line_count = output.count('\n') + 1` of the source. -/
def lineCount (output : String) : Nat :=
  countNewlines output + 1

/-- Rich-mode frame text: for each buffer item `console.print(item)` appends
its rendering to the string buffer; on an exception the handler appends
`"ERROR OCCURRED\n"` instead.  The result is `self._string_buffer.getvalue()`. -/
def richOutput (buffer : List ContentItem) : String :=
  strConcat (buffer.map fun item =>
    match item.richRender with
    | some s => s
    | none => "ERROR OCCURRED\n")

/-- `str(item)` for each buffer item, left to right; `none` as soon as one
item's `__str__` raises. -/
def strRenders : List ContentItem → Option (List String)
  | [] => some []
  | i :: rest =>
    match i.strRender, strRenders rest with
    | some s, some ss => some (s :: ss)
    | _, _ => none

/-- Non-rich frame text: `'\n'.join(str(item) for item in buffer)`.
`none` when some item's `__str__` raises (the source does not catch it). -/
def plainOutput (buffer : List ContentItem) : Option String :=
  (strRenders buffer).map (String.intercalate "\n")

/-- The frame text `_render_to_screen` computes for the given mode, or `none`
when computing it raises (only possible in non-rich mode). -/
def frameOutput (buffer : List ContentItem) (rich : Bool) : Option String :=
  if rich then some (richOutput buffer) else plainOutput buffer

/-- The shrink pass of `_render_to_screen`: if the previous frame wrote more
lines, emit `'\n\x1b[K'` once per surplus line then move the cursor back up
by the surplus. -/
def erasePass (lastLC newLC : Nat) : List Emit :=
  if lastLC > newLC then
    List.replicate (lastLC - newLC) Emit.eraseLineSeq ++ [Emit.cursorUp (lastLC - newLC)]
  else []

/-- `Display._render_to_screen(rich)`.  `curW, curH` is the terminal geometry
returned by `shutil.get_terminal_size()` during this call.  Returns the
emission list and the updated state, or `none` when the call raises
(non-rich mode with a failing `str(item)`; the source emits cursor-home and
the resize handling before the exception, but nothing after). -/
def renderToScreen (s : DisplayState) (rich : Bool) (curW curH : Nat) :
    Option (List Emit × DisplayState) :=
  if s.buffer.isEmpty then some ([], s)
  else
    let resized := (curW, curH) ≠ (s.termW, s.termH)
    let s1 := if resized then
        { s with termW := curW, termH := curH, lastLineCount := 0 }
      else s
    match frameOutput s.buffer rich with
    | none => none
    | some output =>
      let lc := lineCount output
      some ([Emit.cursorHome]
              ++ (if resized then [Emit.clearScreen] else [])
              ++ [Emit.content output]
              ++ erasePass s1.lastLineCount lc,
            { s1 with lastLineCount := lc })

/-- Cursor row (0-based, unbounded below the screen) after processing one
emission, starting from the given row.  `cursorHome` jumps to row 0, a
newline moves one row down, `cursorUp n` moves up clamping at the top. -/
def rowAfterEmit (row : Nat) : Emit → Nat
  | .cursorHome => 0
  | .clearScreen => row
  | .content s => row + countNewlines s
  | .eraseLineSeq => row + 1
  | .cursorUp n => row - n

/-- Cursor row after processing an emission list. -/
def rowAfter (row : Nat) (es : List Emit) : Nat :=
  es.foldl rowAfterEmit row

/-- The newline-separated segments of a character sequence (the screen lines
a text block touches when written from column 0). -/
def lineSegments : List Char → List (List Char)
  | [] => [[]]
  | c :: cs =>
    if c = '\n' then [] :: lineSegments cs
    else
      match lineSegments cs with
      | r :: rs => (c :: r) :: rs
      | [] => [[c]]

/-- The number of screen lines a text block spans when written from column 0. -/
def linesSpanned (s : String) : Nat :=
  (lineSegments s.data).length

/-! ## Selection menus (`selection.py`) -/

/-- A Python value held in `SelectionOption.value`: either a string or a
dict (the declared type of the parameter).  The dict's entries keep
insertion order; only its keys are inspected by the table builder, so the
mapped-to values are kept pre-stringified. -/
inductive PyVal
  | str (s : String)
  | dict (entries : List (String × String))
deriving Repr, DecidableEq

/-- Python truthiness of a `PyVal` (`if option.value:`). -/
def PyVal.truthy : PyVal → Bool
  | .str s => s ≠ ""
  | .dict l => l ≠ []

/-- `SelectionOption`: name, description (default `""`), value (defaults to
the name), and `additional_info`, an insertion-ordered mapping whose values
may be `None` (modelled `Option String`, other values pre-stringified). -/
structure SelectionOption where
  name : String
  description : String
  value : PyVal
  additionalInfo : List (String × Option String)
deriving Repr, DecidableEq

/-- The `SelectionOption.__init__` defaulting: `value` falls back to `name`
when the caller passes `None`. -/
def SelectionOption.make (name : String) (description : String := "")
    (value : Option PyVal := none)
    (additionalInfo : List (String × Option String) := []) : SelectionOption :=
  { name := name, description := description,
    value := value.getD (PyVal.str name), additionalInfo := additionalInfo }

/-- The mutable state of a `Selection` menu that `_handle_user_input` reads
and writes, plus the configuration it consults.  `hasCallback` records
whether `action_callback` is not `None`. -/
structure SelectionState where
  options : List SelectionOption
  index : Int
  cancellable : Bool
  hasCallback : Bool
deriving Repr, DecidableEq

/-- The symbolic key names returned by `keyboard.read_key()` that the menu
distinguishes; every other string is `other`. -/
inductive Key
  | up
  | down
  | space
  | enter
  | esc
  | other (s : String)
deriving Repr, DecidableEq

/-- Python list indexing `options[i]`: negative indices count from the end,
out-of-range raises (`none`). -/
def pyGet (l : List SelectionOption) (i : Int) : Option SelectionOption :=
  if h : 0 ≤ i ∧ i < (l.length : Int) then some (l.get ⟨i.toNat, by omega⟩)
  else if h' : 0 ≤ i + l.length ∧ i < 0 then some (l.get ⟨(i + l.length).toNat, by omega⟩)
  else none

/-- Result of one `_handle_user_input` call: keep looping with the updated
state, or stop with the returned value (recording whether the action
callback was invoked and that `display.clear()` ran), or raise
(out-of-range `options[self.index]`). -/
inductive Step
  | continueLoop (s : SelectionState)
  | finish (v : Option PyVal) (callbackInvoked : Bool)
  | raised
deriving Repr, DecidableEq

/-- `Selection._handle_user_input` for one key read: `up`/`down` wrap the
index with Python's `%` (non-negative for a positive modulus, i.e. `Int.emod`
here), `space`/`enter` invoke the callback when present and return the
selected option's value, `esc` returns `None` only when cancellable, and any
other key is ignored. -/
def handleUserInput (s : SelectionState) (k : Key) : Step :=
  match k with
  | .up => .continueLoop { s with index := (s.index - 1) % (s.options.length : Int) }
  | .down => .continueLoop { s with index := (s.index + 1) % (s.options.length : Int) }
  | .space | .enter =>
    match pyGet s.options s.index with
    | some selected => .finish (some selected.value) s.hasCallback
    | none => .raised
  | .esc => if s.cancellable then .finish none false else .continueLoop s
  | .other _ => .continueLoop s

/-- Outcome of driving the `run` loop over a finite key sequence. -/
inductive RunResult
  | finished (v : Option PyVal) (callbacks : Nat)
  | exhausted (s : SelectionState) (callbacks : Nat)
  | raised
deriving Repr, DecidableEq

/-- The shared `run` loop of both menu variants, driven by a finite list of
keys from the key source: each iteration rebuilds the frame, paints, then
handles one key; a `finish` step returns from `run`.  `callbacks` counts
action-callback invocations so far. -/
def runKeys (s : SelectionState) : List Key → Nat → RunResult
  | [], acc => .exhausted s acc
  | k :: ks, acc =>
    match handleUserInput s k with
    | .continueLoop s' => runKeys s' ks acc
    | .finish v cb => .finished v (acc + (if cb then 1 else 0))
    | .raised => .raised

/-! ## `BoxSelection.initialize_table` -/

/-- A rich `Table` as `initialize_table` fills it: the column headers in
order, and one cell list per `add_row` call. -/
structure Table where
  title : String
  columns : List String
  rows : List (List String)
deriving Repr, DecidableEq

/-- `info_key[0].upper() + info_key[1:]` (total here; the source would raise
an IndexError on an empty key, which no claim exercises). -/
def capitalizeFirst (s : String) : String :=
  match s.data with
  | [] => ""
  | c :: cs => String.mk (c.toUpper :: cs)

/-- The table's value cell for one option: the first key when the value is a
non-empty dict, otherwise `str(value)` (for the unreachable empty dict,
Python's `str` prints an empty brace pair). -/
def valueCell : PyVal → String
  | .dict ((k, _) :: _) => k
  | .str s => s
  | .dict [] => "\x7b\x7d"

/-- The columns `initialize_table` adds, all taken from the FIRST option:
`Name`, `Description`, `Value` each only when the corresponding field is
truthy, then one column per `additional_info` key, first letter upper-cased. -/
def tableColumns (first : SelectionOption) : List String :=
  (if first.name ≠ "" then ["Name"] else [])
    ++ (if first.description ≠ "" then ["Description"] else [])
    ++ (if first.value.truthy then ["Value"] else [])
    ++ first.additionalInfo.map (fun p => capitalizeFirst p.1)

/-- The row `initialize_table` builds for one option, from that OPTION'S OWN
fields: its name when non-empty, its description when non-empty, its value
cell when the value is truthy, then each `additional_info` value that is not
`None`. -/
def optionRow (o : SelectionOption) : List String :=
  (if o.name ≠ "" then [o.name] else [])
    ++ (if o.description ≠ "" then [o.description] else [])
    ++ (if o.value.truthy then [valueCell o.value] else [])
    ++ o.additionalInfo.filterMap Prod.snd

/-- `BoxSelection.initialize_table`: `none` when the option list is empty
(the source returns early leaving the table untouched); otherwise the title,
the columns determined by the first option, and one row per option. -/
def initializeTable (title : String) (options : List SelectionOption) : Option Table :=
  match options with
  | [] => none
  | first :: _ =>
    some { title := title,
           columns := tableColumns first,
           rows := options.map optionRow }

/-! ## Display refresh loop (`start_display_loop` / `stop_display_loop`) -/

/-- The loop-control slice of `Display`: the thread handle (with its
`is_alive()` flag), the `_stop_display` flag, and a ghost flag recording
that a forgotten loop thread is still running after a timed-out join. -/
structure LoopState where
  thread : Option Bool
  stopFlag : Bool
  orphanAlive : Bool
deriving Repr, DecidableEq

/-- `self._display_thread and self._display_thread.is_alive()`. -/
def loopRunning (s : LoopState) : Bool :=
  match s.thread with
  | some alive => alive
  | none => false

/-- `Display.start_display_loop`: raises `RuntimeError("Display loop is
already running")` when the thread handle exists and is alive; otherwise
clears `_stop_display` and starts a fresh (alive) loop thread. -/
def startDisplayLoop (s : LoopState) : Except String LoopState :=
  if loopRunning s then Except.error "Display loop is already running"
  else Except.ok { s with thread := some true, stopFlag := false }

/-- `Display.stop_display_loop`: a no-op when no live loop thread exists;
otherwise sets `_stop_display`, joins with a 1-second timeout (the oracle
`exitedInTime` says whether the thread finished within it), and forgets the
handle either way.  A thread that outlives the join keeps running orphaned. -/
def stopDisplayLoop (s : LoopState) (exitedInTime : Bool) : LoopState :=
  if loopRunning s then
    { thread := none, stopFlag := true,
      orphanAlive := s.orphanAlive || !exitedInTime }
  else s

end PandaUtil

/-! ## Helper lemmas -/

namespace PandaUtil

theorem strConcat_append (l1 l2 : List String) :
    strConcat (l1 ++ l2) = strConcat l1 ++ strConcat l2 := by
  induction l1 with
  | nil => simp [strConcat]
  | cons a l ih => simp [strConcat, ih, String.append_assoc]

/-- Unfolding of `_render_to_screen` on a non-empty buffer when the queried
geometry equals the cached one: cursor home, the content block, then the
shrink pass; the state keeps its geometry and records the new line count. -/
theorem renderToScreen_no_resize (s : DisplayState) (rich : Bool) (out : String)
    (hb : s.buffer ≠ []) (hout : frameOutput s.buffer rich = some out) :
    renderToScreen s rich s.termW s.termH =
      some ([Emit.cursorHome, Emit.content out] ++ erasePass s.lastLineCount (lineCount out),
            { s with lastLineCount := lineCount out }) := by
  rw [renderToScreen, if_neg (by simpa using hb)]
  simp only [ne_eq, not_true_eq_false, if_false, ite_false, hout, Prod.mk.injEq]
  simp

theorem erasePass_count (a b : Nat) :
    (erasePass a b).count Emit.eraseLineSeq = a - b := by
  rw [erasePass]
  split
  · simp [List.count_append, List.count_replicate]
  · simp
    omega

theorem rowAfter_replicate_erase (r n : Nat) :
    rowAfter r (List.replicate n Emit.eraseLineSeq) = r + n := by
  induction n generalizing r with
  | zero => simp [rowAfter]
  | succ k ih =>
    simp [rowAfter, List.replicate, List.foldl_cons, rowAfterEmit] at ih ⊢
    rw [ih]
    omega

theorem rowAfter_append (r : Nat) (l1 l2 : List Emit) :
    rowAfter r (l1 ++ l2) = rowAfter (rowAfter r l1) l2 := by
  simp [rowAfter, List.foldl_append]

/-! ## Claim theorems -/

/-- C1: on a non-empty buffer with no resize, when the previous render left
`lastLineCount = L1` and the new content block has `L2 < L1` lines, the
render emits the content and then exactly `L1 - L2` newline-plus-erase
sequences followed by a cursor-up of `L1 - L2` rows, and the cursor ends at
the row it would occupy without the erase pass. -/
theorem shrink_erase_pass (s : DisplayState) (rich : Bool) (out : String)
    (hb : s.buffer ≠ [])
    (hout : frameOutput s.buffer rich = some out)
    (hL : lineCount out < s.lastLineCount) :
    renderToScreen s rich s.termW s.termH =
      some ([Emit.cursorHome, Emit.content out]
              ++ (List.replicate (s.lastLineCount - lineCount out) Emit.eraseLineSeq
                    ++ [Emit.cursorUp (s.lastLineCount - lineCount out)]),
            { s with lastLineCount := lineCount out })
    ∧ ∀ es s', renderToScreen s rich s.termW s.termH = some (es, s') →
        es.count Emit.eraseLineSeq = s.lastLineCount - lineCount out
        ∧ rowAfter 0 es = rowAfter 0 [Emit.cursorHome, Emit.content out] := by
  have hmain := renderToScreen_no_resize s rich out hb hout
  have hep : erasePass s.lastLineCount (lineCount out)
      = List.replicate (s.lastLineCount - lineCount out) Emit.eraseLineSeq
          ++ [Emit.cursorUp (s.lastLineCount - lineCount out)] := by
    rw [erasePass, if_pos hL]
  refine ⟨by rw [hmain, hep], ?_⟩
  intro es s' hes
  rw [hmain] at hes
  simp only [Option.some.injEq, Prod.mk.injEq] at hes
  obtain ⟨he, -⟩ := hes
  subst he
  constructor
  · simp [List.count_append, List.count_cons, erasePass_count]
  · rw [hep, rowAfter_append, rowAfter_append, rowAfter_replicate_erase]
    simp [rowAfter, rowAfterEmit]

/-- C1 witness: a concrete shrink from 3 previous lines to a 2-line frame
emits one erase sequence and one cursor-up. -/
theorem shrink_erase_pass_witness :
    (([⟨some "hi\n", some "hi"⟩] : List ContentItem) ≠ []
      ∧ frameOutput [⟨some "hi\n", some "hi"⟩] true = some "hi\n"
      ∧ lineCount "hi\n" < 3)
    ∧ renderToScreen ⟨[⟨some "hi\n", some "hi"⟩], 3, 80, 24⟩ true 80 24
        = some ([Emit.cursorHome, Emit.content "hi\n"]
                  ++ (List.replicate (3 - lineCount "hi\n") Emit.eraseLineSeq
                        ++ [Emit.cursorUp (3 - lineCount "hi\n")]),
               ⟨[⟨some "hi\n", some "hi"⟩], lineCount "hi\n", 80, 24⟩) :=
  ⟨⟨by decide, by decide, by decide⟩,
   (shrink_erase_pass ⟨[⟨some "hi\n", some "hi"⟩], 3, 80, 24⟩ true "hi\n"
      (by decide) (by decide) (by decide)).1⟩

end PandaUtil

namespace PandaUtil

/-- C2 counterexample: on a non-empty unchanged buffer with unchanged
geometry, two consecutive renders are NOT byte-identical when the first one
still erases surplus lines from an earlier, longer frame: the first call
emits an erase sequence and a cursor-up that the second call does not. -/
theorem render_idempotence_counterexample :
    renderToScreen ⟨[⟨some "hi\n", some "hi"⟩], 3, 80, 24⟩ true 80 24
      = some ([Emit.cursorHome, Emit.content "hi\n", Emit.eraseLineSeq, Emit.cursorUp 1],
              ⟨[⟨some "hi\n", some "hi"⟩], 2, 80, 24⟩)
    ∧ renderToScreen ⟨[⟨some "hi\n", some "hi"⟩], 2, 80, 24⟩ true 80 24
      = some ([Emit.cursorHome, Emit.content "hi\n"],
              ⟨[⟨some "hi\n", some "hi"⟩], 2, 80, 24⟩)
    ∧ emittedString [Emit.cursorHome, Emit.content "hi\n", Emit.eraseLineSeq, Emit.cursorUp 1]
        ≠ emittedString [Emit.cursorHome, Emit.content "hi\n"] := by
  refine ⟨by decide, by decide, by decide⟩

/-- C2 (amended): two consecutive renders of an unchanged, non-empty buffer
with unchanged geometry write the same content block and the same line count
both times and leave the same state; the full emitted byte streams are
moreover identical whenever the first call performs no erase pass (its
pre-state `lastLineCount` is at most the frame's line count — in particular
from the second of any run of identical calls onwards). -/
theorem render_twice_same_content (s : DisplayState) (rich : Bool) (out : String)
    (hb : s.buffer ≠ []) (hout : frameOutput s.buffer rich = some out) :
    ∃ es1 s1 es2 s2,
      renderToScreen s rich s.termW s.termH = some (es1, s1)
      ∧ renderToScreen s1 rich s.termW s.termH = some (es2, s2)
      ∧ Emit.content out ∈ es1 ∧ Emit.content out ∈ es2
      ∧ s1.lastLineCount = lineCount out ∧ s2.lastLineCount = lineCount out
      ∧ s2 = s1
      ∧ (s.lastLineCount ≤ lineCount out →
          es1 = es2 ∧ emittedString es1 = emittedString es2) := by
  have h1 := renderToScreen_no_resize s rich out hb hout
  have h2 := renderToScreen_no_resize { s with lastLineCount := lineCount out } rich out hb hout
  have hpass2 : erasePass (lineCount out) (lineCount out) = [] := by
    rw [erasePass, if_neg (lt_irrefl _)]
  refine ⟨_, _, _, _, h1, h2, ?_, ?_, rfl, rfl, rfl, ?_⟩
  · simp
  · simp
  · intro hle
    have hpass1 : erasePass s.lastLineCount (lineCount out) = [] := by
      rw [erasePass, if_neg (by omega)]
    rw [hpass1, hpass2]
    exact ⟨rfl, rfl⟩

/-- C2 witness: the amended statement at a concrete steady-state frame. -/
theorem render_twice_same_content_witness :
    (([⟨some "hi\n", some "hi"⟩] : List ContentItem) ≠ []
      ∧ frameOutput [⟨some "hi\n", some "hi"⟩] true = some "hi\n")
    ∧ (∃ es1 s1 es2 s2,
        renderToScreen ⟨[⟨some "hi\n", some "hi"⟩], 2, 80, 24⟩ true 80 24 = some (es1, s1)
        ∧ renderToScreen s1 true 80 24 = some (es2, s2)
        ∧ Emit.content "hi\n" ∈ es1 ∧ Emit.content "hi\n" ∈ es2
        ∧ s1.lastLineCount = lineCount "hi\n" ∧ s2.lastLineCount = lineCount "hi\n"
        ∧ s2 = s1
        ∧ (2 ≤ lineCount "hi\n" →
            es1 = es2 ∧ emittedString es1 = emittedString es2)) :=
  ⟨⟨by decide, by decide⟩,
   render_twice_same_content ⟨[⟨some "hi\n", some "hi"⟩], 2, 80, 24⟩ true "hi\n"
     (by decide) (by decide)⟩

theorem lineSegments_length (l : List Char) :
    (lineSegments l).length = l.count '\n' + 1 := by
  induction l with
  | nil => simp [lineSegments]
  | cons c cs ih =>
    rw [lineSegments]
    by_cases hc : c = '\n'
    · simp [hc, List.count_cons, ih]
    · simp only [if_neg hc]
      cases h : lineSegments cs with
      | nil => rw [h] at ih; simp at ih
      | cons r rs =>
        rw [h] at ih
        simp only [List.length_cons] at ih ⊢
        simp [List.count_cons, hc]
        omega

/-- Unfolding of `_render_to_screen` on a non-empty buffer when the queried
geometry differs from the cached one: cursor home, one full clear, the
content block, and no erase pass (`lastLineCount` was reset to 0 first);
the new geometry is cached. -/
theorem renderToScreen_resize (s : DisplayState) (rich : Bool) (out : String)
    (curW curH : Nat) (hb : s.buffer ≠ []) (hout : frameOutput s.buffer rich = some out)
    (hne : (curW, curH) ≠ (s.termW, s.termH)) :
    renderToScreen s rich curW curH =
      some ([Emit.cursorHome, Emit.clearScreen, Emit.content out],
            { buffer := s.buffer, lastLineCount := lineCount out,
              termW := curW, termH := curH }) := by
  rw [renderToScreen, if_neg (by simpa using hb)]
  simp only [hout, if_pos hne]
  simp [erasePass]

/-- C3: after any render of a non-empty buffer, in either formatting mode,
`lastLineCount` equals the number of newline characters of the emitted
content block plus one, which is the number of screen lines that block
spans. -/
theorem render_lastLineCount_invariant (s : DisplayState) (rich : Bool) (out : String)
    (curW curH : Nat) (es : List Emit) (s' : DisplayState)
    (hb : s.buffer ≠ []) (hout : frameOutput s.buffer rich = some out)
    (hr : renderToScreen s rich curW curH = some (es, s')) :
    s'.lastLineCount = countNewlines out + 1
    ∧ s'.lastLineCount = linesSpanned out := by
  have hls : linesSpanned out = countNewlines out + 1 := by
    rw [linesSpanned, lineSegments_length]; rfl
  suffices h : s'.lastLineCount = lineCount out by
    rw [h, hls]; exact ⟨rfl, rfl⟩
  by_cases hg : (curW, curH) = (s.termW, s.termH)
  · obtain ⟨hW, hH⟩ := Prod.mk.injEq _ _ _ _ ▸ hg
    subst hW; subst hH
    rw [renderToScreen_no_resize s rich out hb hout] at hr
    simp only [Option.some.injEq, Prod.mk.injEq] at hr
    rw [← hr.2]
  · rw [renderToScreen_resize s rich out curW curH hb hout hg] at hr
    simp only [Option.some.injEq, Prod.mk.injEq] at hr
    rw [← hr.2]

/-- C3 witness: the invariant at a concrete two-line rich frame. -/
theorem render_lastLineCount_invariant_witness :
    (([⟨some "hi\n", some "hi"⟩] : List ContentItem) ≠ []
      ∧ frameOutput [⟨some "hi\n", some "hi"⟩] true = some "hi\n"
      ∧ renderToScreen ⟨[⟨some "hi\n", some "hi"⟩], 0, 80, 24⟩ true 80 24
          = some ([Emit.cursorHome, Emit.content "hi\n"],
                  ⟨[⟨some "hi\n", some "hi"⟩], 2, 80, 24⟩))
    ∧ ((⟨[⟨some "hi\n", some "hi"⟩], 2, 80, 24⟩ : DisplayState).lastLineCount
          = countNewlines "hi\n" + 1
       ∧ (⟨[⟨some "hi\n", some "hi"⟩], 2, 80, 24⟩ : DisplayState).lastLineCount
          = linesSpanned "hi\n") :=
  ⟨⟨by decide, by decide, by decide⟩,
   render_lastLineCount_invariant ⟨[⟨some "hi\n", some "hi"⟩], 0, 80, 24⟩ true "hi\n"
     80 24 [Emit.cursorHome, Emit.content "hi\n"] ⟨[⟨some "hi\n", some "hi"⟩], 2, 80, 24⟩
     (by decide) (by decide) (by decide)⟩

theorem erasePass_count_clear (a b : Nat) :
    (erasePass a b).count Emit.clearScreen = 0 := by
  rw [erasePass]
  split <;> simp [List.count_append, List.count_replicate, beq_iff_eq]

/-- C4: a render of a non-empty buffer emits a full-screen clear exactly when
the queried geometry differs from the cached one (so at most one clear per
call), and on a resize the frame is cursor-home, clear, content with no
erase pass — `lastLineCount` having been reset to 0 before the line
accounting, which then records the new frame's line count. -/
theorem render_resize_clear (s : DisplayState) (rich : Bool) (out : String)
    (curW curH : Nat) (es : List Emit) (s' : DisplayState)
    (hb : s.buffer ≠ []) (hout : frameOutput s.buffer rich = some out)
    (hr : renderToScreen s rich curW curH = some (es, s')) :
    (es.count Emit.clearScreen = if (curW, curH) ≠ (s.termW, s.termH) then 1 else 0)
    ∧ es.count Emit.clearScreen ≤ 1
    ∧ ((curW, curH) ≠ (s.termW, s.termH) →
        es = [Emit.cursorHome, Emit.clearScreen, Emit.content out]
        ∧ es.count Emit.eraseLineSeq = 0
        ∧ s'.lastLineCount = lineCount out) := by
  by_cases hg : (curW, curH) = (s.termW, s.termH)
  · obtain ⟨hW, hH⟩ := Prod.mk.injEq _ _ _ _ ▸ hg
    subst hW; subst hH
    rw [renderToScreen_no_resize s rich out hb hout] at hr
    simp only [Option.some.injEq, Prod.mk.injEq] at hr
    obtain ⟨he, -⟩ := hr
    subst he
    refine ⟨?_, ?_, ?_⟩
    · simp [List.count_append, List.count_cons, beq_iff_eq, erasePass_count_clear]
    · simp [List.count_append, List.count_cons, beq_iff_eq, erasePass_count_clear]
    · intro h; exact absurd rfl h
  · rw [renderToScreen_resize s rich out curW curH hb hout hg] at hr
    simp only [Option.some.injEq, Prod.mk.injEq] at hr
    obtain ⟨he, hs⟩ := hr
    subst he
    refine ⟨?_, ?_, ?_⟩
    · simp [List.count_cons, beq_iff_eq, hg]
    · simp [List.count_cons, beq_iff_eq]
    · intro _
      refine ⟨rfl, ?_, ?_⟩
      · simp [List.count_cons, beq_iff_eq]
      · rw [← hs]

/-- C4 witness: a concrete resize from 80×24 to 100×30 emits exactly one
clear and no erase pass. -/
theorem render_resize_clear_witness :
    (([⟨some "hi\n", some "hi"⟩] : List ContentItem) ≠ []
      ∧ frameOutput [⟨some "hi\n", some "hi"⟩] true = some "hi\n"
      ∧ renderToScreen ⟨[⟨some "hi\n", some "hi"⟩], 5, 80, 24⟩ true 100 30
          = some ([Emit.cursorHome, Emit.clearScreen, Emit.content "hi\n"],
                  ⟨[⟨some "hi\n", some "hi"⟩], 2, 100, 30⟩))
    ∧ (([Emit.cursorHome, Emit.clearScreen, Emit.content "hi\n"].count Emit.clearScreen
          = if ((100 : Nat), (30 : Nat)) ≠ ((80 : Nat), (24 : Nat)) then 1 else 0)
       ∧ [Emit.cursorHome, Emit.clearScreen, Emit.content "hi\n"].count Emit.clearScreen ≤ 1
       ∧ (((100 : Nat), (30 : Nat)) ≠ ((80 : Nat), (24 : Nat)) →
            [Emit.cursorHome, Emit.clearScreen, Emit.content "hi\n"]
              = [Emit.cursorHome, Emit.clearScreen, Emit.content "hi\n"]
            ∧ [Emit.cursorHome, Emit.clearScreen, Emit.content "hi\n"].count Emit.eraseLineSeq = 0
            ∧ (⟨[⟨some "hi\n", some "hi"⟩], 2, 100, 30⟩ : DisplayState).lastLineCount
                = lineCount "hi\n")) :=
  ⟨⟨by decide, by decide, by decide⟩,
   render_resize_clear ⟨[⟨some "hi\n", some "hi"⟩], 5, 80, 24⟩ true "hi\n" 100 30
     [Emit.cursorHome, Emit.clearScreen, Emit.content "hi\n"]
     ⟨[⟨some "hi\n", some "hi"⟩], 2, 100, 30⟩ (by decide) (by decide) (by decide)⟩

end PandaUtil

namespace PandaUtil

theorem strRenders_eq_none (l : List ContentItem) :
    strRenders l = none ↔ ∃ i ∈ l, i.strRender = none := by
  induction l with
  | nil => simp [strRenders]
  | cons a l ih =>
    rw [strRenders]
    cases ha : a.strRender with
    | none => simp [ha]
    | some v =>
      cases hl : strRenders l with
      | none => rw [hl] at ih; simp [ha, ← ih]
      | some vs => rw [hl] at ih; simp [ha, ← ih]

theorem richOutput_split (pre post : List ContentItem) (bad : ContentItem)
    (hbad : bad.richRender = none) :
    richOutput (pre ++ bad :: post)
      = richOutput pre ++ ("ERROR OCCURRED\n" ++ richOutput post) := by
  rw [richOutput, List.map_append, strConcat_append]
  simp [richOutput, List.map_cons, strConcat, hbad]

theorem render_rich_isSome (s : DisplayState) (curW curH : Nat) :
    (renderToScreen s true curW curH).isSome = true := by
  rw [renderToScreen]
  split
  · rfl
  · simp [frameOutput]

theorem render_plain_none_iff (s : DisplayState) (curW curH : Nat)
    (hb : s.buffer ≠ []) :
    (renderToScreen s false curW curH = none ↔ ∃ i ∈ s.buffer, i.strRender = none) := by
  rw [renderToScreen, if_neg (by simpa using hb)]
  rw [← strRenders_eq_none]
  cases h : plainOutput s.buffer with
  | none =>
    rw [plainOutput, Option.map_eq_none'] at h
    simp [frameOutput, plainOutput, h]
  | some v =>
    rw [plainOutput, Option.map_eq_some'] at h
    obtain ⟨u, hu, -⟩ := h
    simp [frameOutput, plainOutput, hu]

/-- C5 counterexample: in NON-rich mode the render of a non-empty buffer
raises (returns `none`) when an item's stringification raises — the source
only guards the rich path with try/except, so an exception does escape the
render boundary in non-rich mode. -/
theorem render_raises_plain_counterexample :
    ([⟨some "x\n", none⟩] : List ContentItem) ≠ []
    ∧ renderToScreen ⟨[⟨some "x\n", none⟩], 0, 80, 24⟩ false 80 24 = none := by
  refine ⟨by decide, by decide⟩

/-- C5 (amended): in rich mode a render never raises — an item whose rich
rendering raises contributes the fixed literal line `ERROR OCCURRED` while
the items before and after it are still rendered; in NON-rich mode, however,
the render raises exactly when some item's stringification raises. -/
theorem render_error_handling (s : DisplayState) (curW curH : Nat)
    (pre post : List ContentItem) (bad : ContentItem)
    (hbad : bad.richRender = none) (hb : s.buffer ≠ []) :
    (renderToScreen s true curW curH).isSome = true
    ∧ richOutput (pre ++ bad :: post)
        = richOutput pre ++ ("ERROR OCCURRED\n" ++ richOutput post)
    ∧ (renderToScreen s false curW curH = none ↔ ∃ i ∈ s.buffer, i.strRender = none) :=
  ⟨render_rich_isSome s curW curH, richOutput_split pre post bad hbad,
   render_plain_none_iff s curW curH hb⟩

/-- C5 witness: the amended statement at a concrete buffer whose single item
fails to stringify, with a failing item between two good ones for the
rich-mode split. -/
theorem render_error_handling_witness :
    ((⟨none, some "b"⟩ : ContentItem).richRender = none
      ∧ ([⟨some "x\n", none⟩] : List ContentItem) ≠ [])
    ∧ ((renderToScreen ⟨[⟨some "x\n", none⟩], 0, 80, 24⟩ true 80 24).isSome = true
       ∧ richOutput ([⟨some "a\n", some "a"⟩] ++ ⟨none, some "b"⟩ :: [⟨some "c\n", some "c"⟩])
           = richOutput [⟨some "a\n", some "a"⟩]
               ++ ("ERROR OCCURRED\n" ++ richOutput [⟨some "c\n", some "c"⟩])
       ∧ (renderToScreen ⟨[⟨some "x\n", none⟩], 0, 80, 24⟩ false 80 24 = none
            ↔ ∃ i ∈ ([⟨some "x\n", none⟩] : List ContentItem), i.strRender = none)) :=
  ⟨⟨by decide, by decide⟩,
   render_error_handling ⟨[⟨some "x\n", none⟩], 0, 80, 24⟩ 80 24
     [⟨some "a\n", some "a"⟩] [⟨some "c\n", some "c"⟩] ⟨none, some "b"⟩
     (by decide) (by decide)⟩

end PandaUtil

namespace PandaUtil

/-- One `down` navigation step of the menu loop: the state
`_handle_user_input` leaves behind after reading a `down` key (a `down` key
always keeps the loop running). -/
def stepDown (s : SelectionState) : SelectionState :=
  match handleUserInput s Key.down with
  | .continueLoop s' => s'
  | _ => s

theorem stepDown_options (s : SelectionState) : (stepDown s).options = s.options := rfl

theorem stepDown_eq (s : SelectionState) :
    stepDown s = { s with index := (s.index + 1) % (s.options.length : Int) } := rfl

theorem emod_add_one (x : Int) (N : Int) :
    (x % N + 1) % N = (x + 1) % N := by
  conv_lhs => rw [Int.add_emod]
  conv_rhs => rw [Int.add_emod]
  rw [Int.emod_emod_of_dvd _ dvd_rfl]

theorem stepDown_iter_index (s : SelectionState) (k : Nat) :
    (stepDown^[k + 1] s).index = (s.index + (k + 1)) % (s.options.length : Int) := by
  induction k with
  | zero => simp [stepDown_eq]
  | succ k ih =>
    rw [Function.iterate_succ_apply', stepDown_eq]
    have hopts : (stepDown^[k + 1] s).options = s.options := by
      clear ih
      induction k with
      | zero => simp [stepDown_options]
      | succ j ihj => rw [Function.iterate_succ_apply', stepDown_options]; exact ihj
    simp only [hopts, ih, emod_add_one]
    congr 1
    push_cast
    ring

/-- C6: in a menu with `N ≥ 1` options at index `i`, a `down` key sets the
index to `(i+1) mod N` and keeps the loop running, an `up` key sets it to
`(i-1) mod N` and keeps it running, and `N` consecutive `down` keys return
the index to `i`. -/
theorem menu_navigation (s : SelectionState)
    (hN : 1 ≤ s.options.length)
    (hi0 : 0 ≤ s.index) (hiN : s.index < (s.options.length : Int)) :
    handleUserInput s Key.down
      = .continueLoop { s with index := (s.index + 1) % (s.options.length : Int) }
    ∧ handleUserInput s Key.up
      = .continueLoop { s with index := (s.index - 1) % (s.options.length : Int) }
    ∧ (stepDown^[s.options.length] s).index = s.index := by
  refine ⟨rfl, rfl, ?_⟩
  obtain ⟨m, hm⟩ : ∃ m, s.options.length = m + 1 := ⟨s.options.length - 1, by omega⟩
  rw [hm, stepDown_iter_index, hm]
  rw [hm] at hiN
  push_cast
  push_cast at hiN
  have h : (s.index + ((m : Int) + 1)) % ((m : Int) + 1) = s.index % ((m : Int) + 1) := by
    simp [Int.add_mul_emod_self_left s.index ((m : Int) + 1) 1]
  rw [h]
  exact Int.emod_eq_of_lt hi0 (by omega)

/-- C6 witness: a concrete three-option menu at index 1. -/
theorem menu_navigation_witness :
    (1 ≤ ([SelectionOption.make "A", SelectionOption.make "B",
            SelectionOption.make "C"] : List SelectionOption).length
      ∧ (0 : Int) ≤ 1 ∧ (1 : Int) < 3)
    ∧ (handleUserInput ⟨[SelectionOption.make "A", SelectionOption.make "B",
          SelectionOption.make "C"], 1, false, false⟩ Key.down
        = .continueLoop ⟨[SelectionOption.make "A", SelectionOption.make "B",
            SelectionOption.make "C"], 2, false, false⟩
       ∧ handleUserInput ⟨[SelectionOption.make "A", SelectionOption.make "B",
            SelectionOption.make "C"], 1, false, false⟩ Key.up
          = .continueLoop ⟨[SelectionOption.make "A", SelectionOption.make "B",
              SelectionOption.make "C"], 0, false, false⟩
       ∧ (stepDown^[3] (⟨[SelectionOption.make "A", SelectionOption.make "B",
            SelectionOption.make "C"], 1, false, false⟩ : SelectionState)).index = 1) :=
  ⟨⟨by decide, by decide, by decide⟩,
   menu_navigation ⟨[SelectionOption.make "A", SelectionOption.make "B",
       SelectionOption.make "C"], 1, false, false⟩ (by decide) (by decide) (by decide)⟩

/-- C7: reading `esc` returns `None` at once, without invoking the action
callback, when the menu is cancellable; when it is not, `esc` leaves the
state unchanged and the loop continues, so a following `enter` returns the
value of the option at the current index (invoking the callback if one is
attached). -/
theorem menu_esc_handling (s : SelectionState) (rest : List Key) (sel : SelectionOption)
    (hsel : pyGet s.options s.index = some sel) :
    (s.cancellable = true → runKeys s (Key.esc :: rest) 0 = RunResult.finished none 0)
    ∧ (s.cancellable = false →
        runKeys s (Key.esc :: Key.enter :: rest) 0
          = RunResult.finished (some sel.value) (if s.hasCallback then 1 else 0)) := by
  constructor
  · intro hc
    rw [runKeys]
    simp [handleUserInput, hc]
  · intro hc
    rw [runKeys]
    simp only [handleUserInput, hc, Bool.false_eq_true, if_false]
    rw [runKeys]
    simp [handleUserInput, hsel]

/-- C7 witness: `esc` on a cancellable two-option menu returns `None` with no
callback; `esc` then `enter` on a non-cancellable one returns option A's
value with one callback invocation. -/
theorem menu_esc_handling_witness :
    (pyGet [SelectionOption.make "A", SelectionOption.make "B"] 0
        = some (SelectionOption.make "A"))
    ∧ runKeys ⟨[SelectionOption.make "A", SelectionOption.make "B"], 0, true, false⟩
        [Key.esc] 0 = RunResult.finished none 0
    ∧ runKeys ⟨[SelectionOption.make "A", SelectionOption.make "B"], 0, false, true⟩
        [Key.esc, Key.enter] 0 = RunResult.finished (some (PyVal.str "A")) 1 :=
  ⟨by decide,
   (menu_esc_handling ⟨[SelectionOption.make "A", SelectionOption.make "B"], 0, true, false⟩
      [] (SelectionOption.make "A") (by decide)).1 rfl,
   (menu_esc_handling ⟨[SelectionOption.make "A", SelectionOption.make "B"], 0, false, true⟩
      [] (SelectionOption.make "A") (by decide)).2 rfl⟩

/-- C8 counterexample: with options A (non-empty description) and B (empty
description), the table has three columns but B's row has only two cells —
rows are built from each option's OWN field truthiness, not the first
option's, so an option does not always get one cell per column. -/
theorem box_table_shape_counterexample :
    initializeTable "T" [SelectionOption.make "A" "d", SelectionOption.make "B"]
      = some { title := "T", columns := ["Name", "Description", "Value"],
               rows := [["A", "d", "A"], ["B", "B"]] }
    ∧ (["B", "B"] : List String).length
        ≠ (["Name", "Description", "Value"] : List String).length := by
  refine ⟨by decide, by decide⟩

/-- C8 (amended): the columns are Name, Description, Value — each present
exactly when the first option's corresponding field is non-empty/truthy —
followed by one column per extra-field key of the first option, first letter
capitalized; every option becomes one row made of ITS OWN non-empty name,
non-empty description, truthy value cell and non-None extra values, in that
order — not of one cell per table column; when every option's
field-presence pattern (and non-None extra-value count) matches the first
option's, each row does have exactly one cell per column. -/
theorem box_table_shape (title : String) (first : SelectionOption)
    (rest : List SelectionOption)
    (hmatch : ∀ o ∈ first :: rest,
      ((o.name = "") ↔ (first.name = ""))
      ∧ ((o.description = "") ↔ (first.description = ""))
      ∧ o.value.truthy = first.value.truthy
      ∧ (o.additionalInfo.filterMap Prod.snd).length = first.additionalInfo.length) :
    ∃ t, initializeTable title (first :: rest) = some t
      ∧ t.title = title
      ∧ t.rows = (first :: rest).map optionRow
      ∧ t.columns.length
          = ((if first.name ≠ "" then 1 else 0) + (if first.description ≠ "" then 1 else 0)
              + (if first.value.truthy then 1 else 0)) + first.additionalInfo.length
      ∧ ∀ r ∈ t.rows, r.length = t.columns.length := by
  refine ⟨_, rfl, rfl, rfl, ?_, ?_⟩
  · simp [tableColumns, apply_ite List.length]
    ring
  · intro r hr
    obtain ⟨o, ho, rfl⟩ := List.mem_map.mp hr
    obtain ⟨h1, h2, h3, h4⟩ := hmatch o ho
    simp only [optionRow, tableColumns, List.length_append, apply_ite List.length,
      List.length_map]
    rw [if_congr (not_congr h1) rfl rfl, if_congr (not_congr h2) rfl rfl, h3, h4]
    simp

/-- C8 witness: two options with matching field-presence patterns give a
table whose every row has one cell per column. -/
theorem box_table_shape_witness :
    (∀ o ∈ [SelectionOption.make "A" "d", SelectionOption.make "B" "e"],
      ((o.name = "") ↔ ((SelectionOption.make "A" "d").name = ""))
      ∧ ((o.description = "") ↔ ((SelectionOption.make "A" "d").description = ""))
      ∧ o.value.truthy = (SelectionOption.make "A" "d").value.truthy
      ∧ (o.additionalInfo.filterMap Prod.snd).length
          = (SelectionOption.make "A" "d").additionalInfo.length)
    ∧ (∃ t, initializeTable "T" [SelectionOption.make "A" "d", SelectionOption.make "B" "e"]
          = some t
        ∧ t.title = "T"
        ∧ t.rows = [SelectionOption.make "A" "d", SelectionOption.make "B" "e"].map optionRow
        ∧ t.columns.length
            = ((if (SelectionOption.make "A" "d").name ≠ "" then 1 else 0)
                + (if (SelectionOption.make "A" "d").description ≠ "" then 1 else 0)
                + (if (SelectionOption.make "A" "d").value.truthy then 1 else 0))
              + (SelectionOption.make "A" "d").additionalInfo.length
        ∧ ∀ r ∈ t.rows, r.length = t.columns.length) :=
  ⟨by decide,
   box_table_shape "T" (SelectionOption.make "A" "d") [SelectionOption.make "B" "e"]
     (by decide)⟩

/-- C9: `start_display_loop` raises the distinguished "already running"
error exactly when a live loop thread exists, and `stop_display_loop` on a
non-running loop is a no-op. -/
theorem loop_start_stop_state_machine (s : LoopState) (b : Bool) :
    (loopRunning s = true →
       startDisplayLoop s = Except.error "Display loop is already running")
    ∧ (loopRunning s = false → (startDisplayLoop s).isOk = true)
    ∧ (loopRunning s = false → stopDisplayLoop s b = s) := by
  refine ⟨?_, ?_, ?_⟩ <;> intro h <;>
    simp [startDisplayLoop, stopDisplayLoop, h, Except.isOk, Except.toBool]

/-- C9 witness: the state machine at a running and a stopped state. -/
theorem loop_start_stop_state_machine_witness :
    startDisplayLoop ⟨some true, false, false⟩
        = Except.error "Display loop is already running"
    ∧ (startDisplayLoop ⟨none, false, false⟩).isOk = true
    ∧ stopDisplayLoop ⟨none, false, false⟩ true = ⟨none, false, false⟩ :=
  ⟨(loop_start_stop_state_machine ⟨some true, false, false⟩ true).1 rfl,
   (loop_start_stop_state_machine ⟨none, false, false⟩ true).2.1 rfl,
   (loop_start_stop_state_machine ⟨none, false, false⟩ true).2.2 rfl⟩

/-- C10: `stop_display_loop` on a running loop forgets the thread handle
regardless of whether the join timed out, and a `start_display_loop` issued
after any `stop_display_loop` always succeeds — even when the timed-out loop
thread is still running orphaned. -/
theorem loop_stop_forgets_handle (s : LoopState) (b : Bool) :
    (loopRunning s = true → (stopDisplayLoop s b).thread = none)
    ∧ (startDisplayLoop (stopDisplayLoop s b)).isOk = true
    ∧ (loopRunning s = true → b = false → (stopDisplayLoop s b).orphanAlive = true) := by
  refine ⟨?_, ?_, ?_⟩
  · intro h
    simp [stopDisplayLoop, h]
  · by_cases h : loopRunning s = true
    · have hstop : stopDisplayLoop s b
          = { thread := none, stopFlag := true, orphanAlive := s.orphanAlive || !b } := by
        simp [stopDisplayLoop, h]
      rw [hstop]
      simp [startDisplayLoop, loopRunning, Except.isOk, Except.toBool]
    · simp only [Bool.not_eq_true] at h
      simp [stopDisplayLoop, h, startDisplayLoop, Except.isOk, Except.toBool]
  · intro h hb
    simp [stopDisplayLoop, h, hb]

/-- C10 witness: stopping a running loop whose thread outlives the join
still clears the handle, and a subsequent start succeeds while the orphan
thread is alive. -/
theorem loop_stop_forgets_handle_witness :
    (stopDisplayLoop ⟨some true, false, false⟩ false).thread = none
    ∧ (startDisplayLoop (stopDisplayLoop ⟨some true, false, false⟩ false)).isOk = true
    ∧ (stopDisplayLoop ⟨some true, false, false⟩ false).orphanAlive = true :=
  ⟨(loop_stop_forgets_handle ⟨some true, false, false⟩ false).1 rfl,
   (loop_stop_forgets_handle ⟨some true, false, false⟩ false).2.1,
   (loop_stop_forgets_handle ⟨some true, false, false⟩ false).2.2 rfl rfl⟩

end PandaUtil
